import Mathlib

/-!
Shallow embedding of the Walle-core runtime (Itsusinn/Walle-core).

Source files embedded:
* `src/lib.rs` — the `OneBot<AH, EH, V>` lifecycle coordinator: signal cell,
  `start`, `started`, `get_signal_rx`, `shutdown`.
* `src/impls/mod.rs` — the `CustomOneBot<E, A, R>` implementation-side
  runtime: `new`, `run`, `is_running`/`is_shutdown`, `set_running`,
  `shutdown`, `send_event`, `get_status`, `start_heartbeat`.
* `src/comms/app/websocket.rs` — the reconnect-forever loop.
* `src/message/builder.rs` — the `MessageBuild` builder methods.

Machine integers carried by these paths (heartbeat interval `i32`,
reconnect interval `u32`) never overflow in the modelled operations, so they
are embedded as `Int`/`Nat`.
-/

deriving instance DecidableEq for Except

namespace Walle

/-- Error taxonomy of `WalleError` (from `src/error.rs` usage in
`src/lib.rs` and `src/impls/mod.rs`): the two lifecycle-state errors are the
only variants the embedded operations produce. -/
inductive WalleError where
  | AlreadyRunning
  | NotRunning
deriving DecidableEq, Repr

/-- Model of a `tokio::sync::broadcast` channel for `()` payloads: the list
of the current receivers' pending-message buffers. Subscribing appends an
empty buffer; sending appends one message to every buffer and fails when
there is no receiver (tokio `Sender::send` returns `Err` with zero
receivers, `Ok(n)` with the receiver count otherwise). -/
abbrev Chan := List (List Unit)

/-- A fresh channel, as made by `tokio::sync::broadcast::channel(1)`:
no receivers yet. -/
def Chan.new : Chan := []

/-- `Sender::subscribe`: a new receiver with an empty buffer; returns the
receiver's index. -/
def Chan.subscribe (c : Chan) : Chan × Nat :=
  (c ++ [[]], c.length)

/-- `Sender::send(())`: deliver to every current receiver, returning the
receiver count, or fail when there are zero receivers. -/
def Chan.send (c : Chan) : Chan × Except Unit Nat :=
  if c.isEmpty then (c, .error ())
  else (c.map (fun buf => buf ++ [()]), .ok c.length)

/-- Records which role's `start()` the coordinator invoked, in order. -/
inductive StartCall where
  | ah
  | eh
deriving DecidableEq, Repr

/-- State of the `OneBot<AH, EH, V>` lifecycle coordinator
(`src/lib.rs:37-43`). The two handler roles are abstracted by the outcome
of their `start()` calls (a list of task-handle ids, or a `WalleError`);
`signal` is the `Mutex<Option<broadcast::Sender<()>>>` cell —
`some` for running, `none` for stopped. -/
structure OneBot where
  ahStartResult : Except WalleError (List Nat)
  ehStartResult : Except WalleError (List Nat)
  signal : Option Chan
deriving DecidableEq, Repr

/-- `OneBot::new` (`src/lib.rs:86-92`): the signal cell starts empty. -/
def OneBot.new (ahStartResult ehStartResult : Except WalleError (List Nat)) : OneBot :=
  { ahStartResult, ehStartResult, signal := none }

/-- `OneBot::start` (`src/lib.rs:93-133`): under the lock, fail with
`AlreadyRunning` if the cell is populated; otherwise store a fresh
broadcast sender, then invoke the two roles' `start()` in the order given
by `ah_first` (propagating a role's error with `?`), returning the
concatenated handle lists. The second component records the order in which
the roles' `start()` methods were invoked. -/
def OneBot.start (ob : OneBot) (ahFirst : Bool) :
    Except WalleError (List Nat) × List StartCall × OneBot :=
  match ob.signal with
  | some _ => (.error .AlreadyRunning, [], ob)
  | none =>
    let ob' := { ob with signal := some Chan.new }
    if ahFirst then
      match ob.ahStartResult with
      | .error e => (.error e, [.ah], ob')
      | .ok a =>
        match ob.ehStartResult with
        | .error e => (.error e, [.ah, .eh], ob')
        | .ok b => (.ok (a ++ b), [.ah, .eh], ob')
    else
      match ob.ehStartResult with
      | .error e => (.error e, [.eh], ob')
      | .ok b =>
        match ob.ahStartResult with
        | .error e => (.error e, [.eh, .ah], ob')
        | .ok a => (.ok (b ++ a), [.eh, .ah], ob')

/-- `OneBot::started` (`src/lib.rs:134-136`). -/
def OneBot.started (ob : OneBot) : Bool :=
  ob.signal.isSome

/-- `OneBot::get_signal_rx` (`src/lib.rs:137-145`): `NotRunning` when the
cell is empty, otherwise subscribe a new receiver (returning its index). -/
def OneBot.get_signal_rx (ob : OneBot) : Except WalleError Nat × OneBot :=
  match ob.signal with
  | none => (.error .NotRunning, ob)
  | some c =>
    let (c', idx) := c.subscribe
    (.ok idx, { ob with signal := some c' })

/-- `OneBot::shutdown` (`src/lib.rs:146-155`): `NotRunning` when the cell
is empty; otherwise `take` the sender (the cell becomes empty), send the
signal with `tx.send(()).ok()` — the zero-subscriber error is swallowed —
and return `Ok(())`. The third component is the receivers' buffers after
the send (the deliveries made by this call). -/
def OneBot.shutdown (ob : OneBot) :
    Except WalleError Unit × OneBot × List (List Unit) :=
  match ob.signal with
  | none => (.error .NotRunning, ob, [])
  | some c =>
    let (c', _sendResult) := c.send
    (.ok (), { ob with signal := none }, c')

/-! ## Implementation-side runtime (`src/impls/mod.rs`) -/

/-- `StatusContent` (`src/resp.rs`, used by `get_status` in
`src/impls/mod.rs:84-89` and the spec's data model §3):
`{ good: bool, online: bool }`. -/
structure StatusContent where
  good : Bool
  online : Bool
deriving DecidableEq, Repr

/-- Heartbeat part of `ImplConfig` (used at `src/impls/mod.rs:134,200-204`):
`enabled` plus a signed `interval` in seconds. -/
structure HeartbeatConfig where
  enabled : Bool
  interval : Int
deriving DecidableEq, Repr

/-- `ImplConfig` as consumed by `CustomOneBot::run`
(`src/impls/mod.rs:98-139`): lists of transport descriptors (each entry
abstracted to an id — `run` only iterates them, spawning one task per
entry) and the heartbeat configuration. -/
structure ImplConfig where
  http : List Nat
  http_webhook : List Nat
  websocket : List Nat
  websocket_rev : List Nat
  heartbeat : HeartbeatConfig
deriving DecidableEq, Repr

/-- State of `CustomOneBot<E, A, R>` (`src/impls/mod.rs:34-48`),
parameterized by the event type `ε`. The broadcaster (the 1024-slot
broadcast channel) is modelled as the current subscribers' buffers; the
action handler and hooks are opaque `Arc`s, abstracted to ids;
`http_join_handles` is the `RwLock`-protected pair of handle lists;
`spawned` records every task handle this instance has spawned (the
spawned-task set), with `nextTask` generating fresh handle ids. -/
structure CustomOneBot (ε : Type) where
  impl : String
  platform : String
  self_id : String
  config : ImplConfig
  action_handler : Nat
  broadcaster : List (List ε)
  hooks : Nat
  http_join_handles : List Nat × List Nat
  spawned : List Nat
  nextTask : Nat
  running : Bool
  online : Bool
deriving DecidableEq, Repr

/-- `CustomOneBot::new` (`src/impls/mod.rs:56-78`): fresh broadcast channel
(no subscribers), empty handle lists, `running` and `online` both at
`AtomicBool::default()`, i.e. `false`. -/
def CustomOneBot.new (impl platform self_id : String) (config : ImplConfig)
    (action_handler hooks : Nat) : CustomOneBot ε :=
  { impl, platform, self_id, config, action_handler, hooks
    broadcaster := []
    http_join_handles := ([], [])
    spawned := []
    nextTask := 0
    running := false
    online := false }

/-- `CustomOneBot::is_running` (`src/impls/mod.rs:145-147`). -/
def CustomOneBot.is_running (ob : CustomOneBot ε) : Bool :=
  ob.running

/-- `CustomOneBot::is_shutdown` (`src/impls/mod.rs:141-143`). -/
def CustomOneBot.is_shutdown (ob : CustomOneBot ε) : Bool :=
  !ob.is_running

/-- `CustomOneBot::set_running` (`src/impls/mod.rs:149-151`):
unconditionally stores `true`. -/
def CustomOneBot.set_running (ob : CustomOneBot ε) : CustomOneBot ε :=
  { ob with running := true }

/-- `CustomOneBot::shutdown` (`src/impls/mod.rs:154-156`):
`self.running.swap(false, SeqCst)` — the only effect is the flag store. -/
def CustomOneBot.shutdown (ob : CustomOneBot ε) : CustomOneBot ε :=
  { ob with running := false }

/-- `CustomOneBot::get_status` (`src/impls/mod.rs:84-89`). -/
def CustomOneBot.get_status (ob : CustomOneBot ε) : StatusContent :=
  { good := ob.is_running, online := ob.online }

/-- `CustomOneBot::send_event` (`src/impls/mod.rs:158-163`): publish on the
broadcaster; `Ok(n)` with the receiver count when someone is subscribed,
otherwise the soft error string. -/
def CustomOneBot.send_event (ob : CustomOneBot ε) (event : ε) :
    Except String Nat × CustomOneBot ε :=
  if ob.broadcaster.isEmpty then
    (.error "there is no event receiver can receive the event yet", ob)
  else
    (.ok ob.broadcaster.length,
     { ob with broadcaster := ob.broadcaster.map (fun buf => buf ++ [event]) })

/-- Spawn `k` background tasks: fresh handle ids, recorded in the
spawned-task set (`tokio::spawn` effects in `run`/`start_heartbeat`). -/
def CustomOneBot.spawnMany (ob : CustomOneBot ε) (k : Nat) :
    List Nat × CustomOneBot ε :=
  let handles := (List.range k).map (fun j => ob.nextTask + j)
  (handles, { ob with spawned := ob.spawned ++ handles, nextTask := ob.nextTask + k })

/-- Modelled from the spec: `CustomOneBot::ws` (the websocket-start step
called at `src/impls/mod.rs:130`) is not under `src/`; per spec §4.6, it
spawns the configured websocket listener tasks and performs the single
running-flag flip ("flag flip happens inside the websocket-start step in
the reference design — implementers must ensure the flag is set exactly
once, before or immediately after spawning, and before `run()` returns"). -/
def CustomOneBot.ws (ob : CustomOneBot ε) : CustomOneBot ε :=
  let (_, ob') := ob.spawnMany ob.config.websocket.length
  ob'.set_running

/-- Modelled from the spec: `CustomOneBot::wsr` (the websocket-reverse
start step called at `src/impls/mod.rs:133`) is not under `src/`; per spec
§4.6 it spawns one resilience-loop client task per configured
websocket-reverse entry. -/
def CustomOneBot.wsr (ob : CustomOneBot ε) : CustomOneBot ε :=
  (ob.spawnMany ob.config.websocket_rev.length).2

/-- The spawn of the heartbeat task (`src/impls/mod.rs:200-224`,
`tokio::spawn` at line 205): one new task; the loop body itself is
embedded separately as `heartbeatInterval`/`heartbeatRun`. -/
def CustomOneBot.start_heartbeat (ob : CustomOneBot ε) : CustomOneBot ε :=
  (ob.spawnMany 1).2

/-- `CustomOneBot::run` (`src/impls/mod.rs:98-139`): fail with
`AlreadyRunning` when the running flag is set (no other effect);
otherwise spawn one HTTP-server task per configured HTTP listener
(recorded in `http_join_handles.0`), one webhook-client task per
configured webhook target (recorded in `http_join_handles.1`), run the
websocket and websocket-reverse start steps, spawn the heartbeat task when
enabled, and return `Ok(())`. -/
def CustomOneBot.run (ob : CustomOneBot ε) :
    Except WalleError Unit × CustomOneBot ε :=
  if ob.is_running then (.error .AlreadyRunning, ob)
  else
    let ob1 :=
      if ob.config.http.isEmpty then ob
      else
        let (hs, ob') := ob.spawnMany ob.config.http.length
        { ob' with
            http_join_handles := (ob'.http_join_handles.1 ++ hs,
                                  ob'.http_join_handles.2) }
    let ob2 :=
      if ob1.config.http_webhook.isEmpty then ob1
      else
        let (hs, ob') := ob1.spawnMany ob1.config.http_webhook.length
        { ob' with
            http_join_handles := (ob'.http_join_handles.1,
                                  ob'.http_join_handles.2 ++ hs) }
    let ob3 := ob2.ws
    let ob4 := ob3.wsr
    let ob5 := if ob4.config.heartbeat.enabled then ob4.start_heartbeat else ob4
    (.ok (), ob5)

/-! ## Heartbeat task body (`src/impls/mod.rs:200-224`) -/

/-- The interval clamp at `src/impls/mod.rs:201-204`: a configured interval
`<= 0` is replaced by 4 seconds. -/
def heartbeatInterval (interval : Int) : Int :=
  if interval ≤ 0 then 4 else interval

/-- The heartbeat loop (`src/impls/mod.rs:206-222`), driven by the value
`is_shutdown` reads at each wake-up (one list element per wake-up, in
order): sleep; if shutdown, break; otherwise broadcast one heartbeat event
and continue. Returns the number of heartbeat events broadcast during the
given wake-ups. -/
def heartbeatRun : List Bool → Nat
  | [] => 0
  | shutdownSeen :: rest =>
    if shutdownSeen then 0 else heartbeatRun rest + 1

/-! ## Reconnect-forever loop (`src/comms/app/websocket.rs:7-22`) -/

/-- Observable actions of the reconnect loop. -/
inductive WsEvent where
  | connectAttempt (k : Nat)
  | sleep (secs : Nat)
  | connLoop
deriving DecidableEq, Repr

/-- The spawned loop body of `run` in `src/comms/app/websocket.rs:14-21`,
as the trace of its first `fuel` iterations. `connectOk k` tells whether
the `k`-th `try_connect` succeeds; on success the `websocket_loop` runs
(and, here, returns); every iteration then sleeps `reconnect_interval`
seconds and retries — the loop itself never exits. -/
def wsRun (connectOk : Nat → Bool) (reconnect_interval : Nat) :
    Nat → Nat → List WsEvent
  | 0, _ => []
  | fuel + 1, k =>
    (if connectOk k then [.connectAttempt k, .connLoop]
     else [.connectAttempt k])
      ++ (.sleep reconnect_interval :: wsRun connectOk reconnect_interval fuel (k + 1))

/-- A connect function that fails on the first two attempts and succeeds
from the third on. -/
def failTwiceThenOk (k : Nat) : Bool :=
  decide (2 ≤ k)

/-- Number of connect attempts in a trace. -/
def countConnects : List WsEvent → Nat
  | [] => 0
  | .connectAttempt _ :: rest => countConnects rest + 1
  | .sleep _ :: rest => countConnects rest
  | .connLoop :: rest => countConnects rest

/-! ## Message builder (`src/message/builder.rs`) -/

/-- `ExtendedMap` (a string-keyed map of extension values; the builder only
constructs and stores it, so entries are opaque string pairs here). -/
abbrev ExtendedMap := List (String × String)

/-- `ExtendedMap::new()`: the empty map. -/
def ExtendedMap.new : ExtendedMap := []

/-- `MessageSegment` variants as constructed by the `MessageBuild` methods
(`src/message/builder.rs:83-112`): each carries its fields plus an
`extend` map (the `Custom` variant carries `ty` and `data`). The `f64`
coordinates of `Location` are carried opaquely as `Float`. -/
inductive MessageSegment where
  | Text (text : String) (extend : ExtendedMap)
  | Mention (user_id : String) (extend : ExtendedMap)
  | MentionAll (extend : ExtendedMap)
  | Image (file_id : String) (extend : ExtendedMap)
  | Voice (file_id : String) (extend : ExtendedMap)
  | Audio (file_id : String) (extend : ExtendedMap)
  | Video (file_id : String) (extend : ExtendedMap)
  | File (file_id : String) (extend : ExtendedMap)
  | Location (latitude : Float) (longitude : Float) (title : String)
      (content : String) (extend : ExtendedMap)
  | Reply (message_id : String) (user_id : String) (extend : ExtendedMap)
  | Custom (ty : String) (data : ExtendedMap)

/-- `Message` = `Vec<MessageSegment>`; `push` appends at the end. -/
abbrev Message := List MessageSegment

/-- `text_with_extend` (`src/message/builder.rs:84`, via
`impl_self_build!`): push the segment, return the message. -/
def Message.text_with_extend (m : Message) (text : String) (extend : ExtendedMap) : Message :=
  m ++ [.Text text extend]

/-- `text` (`src/message/builder.rs:84`). -/
def Message.text (m : Message) (text : String) : Message :=
  m ++ [.Text text ExtendedMap.new]

/-- `mention_with_extend` (`src/message/builder.rs:85`). -/
def Message.mention_with_extend (m : Message) (user_id : String) (extend : ExtendedMap) : Message :=
  m ++ [.Mention user_id extend]

/-- `mention` (`src/message/builder.rs:85`). -/
def Message.mention (m : Message) (user_id : String) : Message :=
  m ++ [.Mention user_id ExtendedMap.new]

/-- `mention_all_with_extend` (`src/message/builder.rs:86`). -/
def Message.mention_all_with_extend (m : Message) (extend : ExtendedMap) : Message :=
  m ++ [.MentionAll extend]

/-- `mention_all` (`src/message/builder.rs:86`). -/
def Message.mention_all (m : Message) : Message :=
  m ++ [.MentionAll ExtendedMap.new]

/-- `image_with_extend` (`src/message/builder.rs:87`). -/
def Message.image_with_extend (m : Message) (file_id : String) (extend : ExtendedMap) : Message :=
  m ++ [.Image file_id extend]

/-- `image` (`src/message/builder.rs:87`). -/
def Message.image (m : Message) (file_id : String) : Message :=
  m ++ [.Image file_id ExtendedMap.new]

/-- `voice_with_extend` (`src/message/builder.rs:88`). -/
def Message.voice_with_extend (m : Message) (file_id : String) (extend : ExtendedMap) : Message :=
  m ++ [.Voice file_id extend]

/-- `voice` (`src/message/builder.rs:88`). -/
def Message.voice (m : Message) (file_id : String) : Message :=
  m ++ [.Voice file_id ExtendedMap.new]

/-- `audio_with_extend` (`src/message/builder.rs:89`). -/
def Message.audio_with_extend (m : Message) (file_id : String) (extend : ExtendedMap) : Message :=
  m ++ [.Audio file_id extend]

/-- `audio` (`src/message/builder.rs:89`). -/
def Message.audio (m : Message) (file_id : String) : Message :=
  m ++ [.Audio file_id ExtendedMap.new]

/-- `video_with_extend` (`src/message/builder.rs:90`). -/
def Message.video_with_extend (m : Message) (file_id : String) (extend : ExtendedMap) : Message :=
  m ++ [.Video file_id extend]

/-- `video` (`src/message/builder.rs:90`). -/
def Message.video (m : Message) (file_id : String) : Message :=
  m ++ [.Video file_id ExtendedMap.new]

/-- `file_with_extend` (`src/message/builder.rs:91`). -/
def Message.file_with_extend (m : Message) (file_id : String) (extend : ExtendedMap) : Message :=
  m ++ [.File file_id extend]

/-- `file` (`src/message/builder.rs:91`). -/
def Message.file (m : Message) (file_id : String) : Message :=
  m ++ [.File file_id ExtendedMap.new]

/-- `location_with_extend` (`src/message/builder.rs:92-100`). -/
def Message.location_with_extend (m : Message) (latitude longitude : Float)
    (title content : String) (extend : ExtendedMap) : Message :=
  m ++ [.Location latitude longitude title content extend]

/-- `location` (`src/message/builder.rs:92-100`). -/
def Message.location (m : Message) (latitude longitude : Float)
    (title content : String) : Message :=
  m ++ [.Location latitude longitude title content ExtendedMap.new]

/-- `reply_with_extend` (`src/message/builder.rs:101-107`). -/
def Message.reply_with_extend (m : Message) (message_id user_id : String)
    (extend : ExtendedMap) : Message :=
  m ++ [.Reply message_id user_id extend]

/-- `reply` (`src/message/builder.rs:101-107`). -/
def Message.reply (m : Message) (message_id user_id : String) : Message :=
  m ++ [.Reply message_id user_id ExtendedMap.new]

/-- `custom` (`src/message/builder.rs:108-111`). -/
def Message.custom (m : Message) (ty : String) (data : ExtendedMap) : Message :=
  m ++ [.Custom ty data]

/-- A builder step appends exactly one segment: the result is one longer,
its first `m.length` elements are the input unchanged, and its last
element is the given segment. -/
def appendsOne (f : Message → Message) (seg : MessageSegment) : Prop :=
  ∀ m : Message,
    (f m).length = m.length + 1 ∧ (f m).take m.length = m ∧
      (f m).getLast? = some seg

/-! ## Helper lemmas -/

theorem Chan.send_fst (c : Chan) :
    c.send.1 = c.map (fun buf => buf ++ [()]) := by
  cases c <;> simp [Chan.send]

theorem appendsOne_concat (seg : MessageSegment) :
    appendsOne (fun m => m ++ [seg]) seg := by
  intro m
  refine ⟨by simp, ?_, by simp⟩
  exact List.take_left m [seg]

/-! ## Claim theorems -/

/-- C2: `OneBot::start` fails with `AlreadyRunning` when the signal cell is
populated, leaving the cell (and the whole coordinator state) unchanged;
otherwise it stores a fresh broadcast sender, invokes the action handler's
`start` before the event handler's when `ah_first` is true and after it
when false, and returns the concatenation of the two handle lists in start
order. -/
theorem onebot_start_spec (ob : OneBot) (ahFirst : Bool) :
    (ob.signal.isSome = true →
      ob.start ahFirst = (.error .AlreadyRunning, [], ob)) ∧
    (∀ a b, ob.signal = none → ob.ahStartResult = .ok a →
      ob.ehStartResult = .ok b →
      ob.start ahFirst =
        (.ok (if ahFirst then a ++ b else b ++ a),
         if ahFirst then [StartCall.ah, StartCall.eh]
         else [StartCall.eh, StartCall.ah],
         { ob with signal := some Chan.new })) := by
  constructor
  · intro h
    match hs : ob.signal with
    | some c => simp [OneBot.start, hs]
    | none => simp [hs] at h
  · intro a b hnone ha hb
    cases ahFirst <;> simp [OneBot.start, hnone, ha, hb]

/-- Witness for C2: a concrete coordinator started from the stopped state,
then started again. -/
theorem onebot_start_spec_witness :
    (OneBot.new (.ok [1]) (.ok [2, 3])).start true =
      (.ok [1, 2, 3], [StartCall.ah, StartCall.eh],
       { OneBot.new (.ok [1]) (.ok [2, 3]) with signal := some Chan.new }) ∧
    ({ OneBot.new (.ok [1]) (.ok [2, 3]) with
        signal := some Chan.new }).start true =
      (.error .AlreadyRunning, [],
       { OneBot.new (.ok [1]) (.ok [2, 3]) with signal := some Chan.new }) := by
  constructor
  · simpa using
      (onebot_start_spec (OneBot.new (.ok [1]) (.ok [2, 3])) true).2 [1] [2, 3]
        rfl rfl rfl
  · exact
      (onebot_start_spec
        { OneBot.new (.ok [1]) (.ok [2, 3]) with signal := some Chan.new }
        true).1 rfl

/-- C3: `OneBot::shutdown` returns `NotRunning` and changes nothing when
the signal cell is empty; when populated it empties the cell (so
`started()` is false afterwards), broadcasts the signal exactly once (each
subscriber's buffer gains exactly one message), returns `Ok`, and the
zero-subscriber send error is swallowed. -/
theorem onebot_shutdown_spec (ob : OneBot) :
    (ob.signal = none → ob.shutdown = (.error .NotRunning, ob, [])) ∧
    (∀ c, ob.signal = some c →
      ob.shutdown = (.ok (), { ob with signal := none },
                     c.map (fun buf => buf ++ [()])) ∧
      ob.shutdown.2.1.started = false) := by
  constructor
  · intro h
    simp [OneBot.shutdown, h]
  · intro c hc
    constructor
    · simp [OneBot.shutdown, hc, Chan.send_fst]
    · simp [OneBot.shutdown, hc, OneBot.started]

/-- Witness for C3: shutdown of a stopped coordinator, of a running one
with two subscribers, and of a running one with zero subscribers (error
swallowed). -/
theorem onebot_shutdown_spec_witness :
    (OneBot.new (.ok []) (.ok [])).shutdown =
      (.error .NotRunning, OneBot.new (.ok []) (.ok []), []) ∧
    ({ OneBot.new (.ok []) (.ok []) with
        signal := some [[], []] }).shutdown =
      (.ok (), { OneBot.new (.ok []) (.ok []) with signal := none },
       [[()], [()]]) ∧
    ({ OneBot.new (.ok []) (.ok []) with signal := some [] }).shutdown =
      (.ok (), { OneBot.new (.ok []) (.ok []) with signal := none }, []) := by
  refine ⟨(onebot_shutdown_spec (OneBot.new (.ok []) (.ok []))).1 rfl, ?_, ?_⟩
  · simpa using
      ((onebot_shutdown_spec
        { OneBot.new (.ok []) (.ok []) with signal := some [[], []] }).2
        [[], []] rfl).1
  · simpa using
      ((onebot_shutdown_spec
        { OneBot.new (.ok []) (.ok []) with signal := some [] }).2 [] rfl).1

/-- C4: on a started coordinator, `get_signal_rx` subscribes a fresh
receiver (empty buffer, at index `c.length`), and the `shutdown` that
follows delivers exactly one signal to that receiver; on a coordinator
whose signal cell is empty (as it is after a successful `shutdown`),
`get_signal_rx` fails with `NotRunning` and changes nothing. -/
theorem onebot_signal_rx_spec :
    (∀ (ob : OneBot) (c : Chan), ob.signal = some c →
      ob.get_signal_rx =
        (.ok c.length, { ob with signal := some (c ++ [[]]) }) ∧
      ob.get_signal_rx.2.shutdown.2.2[c.length]? = some [()] ∧
      ob.get_signal_rx.2.shutdown.2.1.get_signal_rx =
        (.error .NotRunning, ob.get_signal_rx.2.shutdown.2.1)) ∧
    (∀ ob : OneBot, ob.signal = none →
      ob.get_signal_rx = (.error .NotRunning, ob)) := by
  constructor
  · intro ob c hc
    refine ⟨?_, ?_, ?_⟩
    · simp [OneBot.get_signal_rx, hc, Chan.subscribe]
    · simp [OneBot.get_signal_rx, hc, Chan.subscribe, OneBot.shutdown,
        Chan.send_fst]
    · simp [OneBot.get_signal_rx, hc, Chan.subscribe, OneBot.shutdown]
  · intro ob h
    simp [OneBot.get_signal_rx, h]

/-- Witness for C4: a running coordinator with one pre-existing subscriber;
and a stopped one. -/
theorem onebot_signal_rx_spec_witness :
    ({ OneBot.new (.ok []) (.ok []) with
        signal := some [[]] }).get_signal_rx.2.shutdown.2.2[1]? = some [()] ∧
    (OneBot.new (.ok []) (.ok [])).get_signal_rx =
      (.error .NotRunning, OneBot.new (.ok []) (.ok [])) := by
  constructor
  · exact (onebot_signal_rx_spec.1
      { OneBot.new (.ok []) (.ok []) with signal := some [[]] } [[]] rfl).2.1
  · exact onebot_signal_rx_spec.2 (OneBot.new (.ok []) (.ok [])) rfl

/-- C5: `CustomOneBot::send_event` with zero current subscribers returns
the soft "no receiver" error and leaves the state unchanged (it is a total
function — no panic, no blocking); with `N > 0` subscribers it returns
`Ok N` where `N` is the number of receivers, each of which got the
event. -/
theorem send_event_subscribers_spec {ε : Type} (ob : CustomOneBot ε) (ev : ε) :
    (ob.broadcaster = [] →
      ob.send_event ev =
        (.error "there is no event receiver can receive the event yet", ob)) ∧
    (ob.broadcaster ≠ [] →
      ob.send_event ev =
        (.ok ob.broadcaster.length,
         { ob with broadcaster := ob.broadcaster.map (fun buf => buf ++ [ev]) }) ∧
      0 < ob.broadcaster.length) := by
  constructor
  · intro h
    simp [CustomOneBot.send_event, h]
  · intro h
    refine ⟨?_, List.length_pos.mpr h⟩
    simp [CustomOneBot.send_event, List.isEmpty_iff, h]

/-- Witness for C5: a runtime with zero subscribers, then one with two. -/
theorem send_event_subscribers_spec_witness :
    ((@CustomOneBot.new Unit "w" "p" "s" ⟨[], [], [], [], ⟨false, 0⟩⟩ 0 0).send_event () =
      (.error "there is no event receiver can receive the event yet",
       @CustomOneBot.new Unit "w" "p" "s" ⟨[], [], [], [], ⟨false, 0⟩⟩ 0 0)) ∧
    (({ @CustomOneBot.new Unit "w" "p" "s" ⟨[], [], [], [], ⟨false, 0⟩⟩ 0 0 with
        broadcaster := [[], []] }).send_event ()).1 = .ok 2 := by
  constructor
  · exact (send_event_subscribers_spec
      (@CustomOneBot.new Unit "w" "p" "s" ⟨[], [], [], [], ⟨false, 0⟩⟩ 0 0) ()).1 rfl
  · have h := (send_event_subscribers_spec
      ({ @CustomOneBot.new Unit "w" "p" "s" ⟨[], [], [], [], ⟨false, 0⟩⟩ 0 0 with
         broadcaster := [[], []] }) ()).2 (by simp)
    simp [h.1]

/-- C6: a configured heartbeat interval `≤ 0` is clamped to 4 seconds; and
whenever a wake-up observes `is_shutdown`, the loop exits there without
broadcasting — so the loop emits exactly one heartbeat per wake-up that
precedes the shutdown observation, and at most one heartbeat (the
possible in-flight iteration) is broadcast after the flag goes false. -/
theorem heartbeat_clamp_and_exit :
    (∀ i : Int, i ≤ 0 → heartbeatInterval i = 4) ∧
    (∀ pre post : List Bool, (∀ b ∈ pre, b = false) →
      (∀ b ∈ post, b = true) →
      heartbeatRun (pre ++ post) = pre.length) := by
  constructor
  · intro i h
    simp [heartbeatInterval, h]
  · intro pre post hpre hpost
    induction pre with
    | nil =>
      cases post with
      | nil => rfl
      | cons t rest =>
        have := hpost t (by simp)
        simp [heartbeatRun, this]
    | cons b rest ih =>
      have hb := hpre b (by simp)
      have := ih (fun x hx => hpre x (by simp [hx]))
      simp [heartbeatRun, hb, this]

/-- Witness for C6: interval `-3` clamps to 4; two pre-shutdown wake-ups
then two shutdown-observing wake-ups yield exactly two heartbeats. -/
theorem heartbeat_clamp_and_exit_witness :
    heartbeatInterval (-3) = 4 ∧
    heartbeatRun ([false, false] ++ [true, true]) = 2 := by
  constructor
  · exact heartbeat_clamp_and_exit.1 (-3) (by decide)
  · exact heartbeat_clamp_and_exit.2 [false, false] [true, true]
      (by decide) (by decide)

/-- C7: with a connect function failing on the first two attempts and
succeeding on the third, and a connection loop that returns immediately,
the first three iterations of the reconnect loop are exactly: attempt 1,
sleep `reconnect_interval`, attempt 2, sleep, attempt 3, connection loop,
sleep; and for every connect function, interval and fuel, the loop makes
exactly one connect attempt per iteration — it never terminates on its
own, retrying after every failure and every connection-loop return. -/
theorem reconnect_loop_spec :
    (∀ i : Nat, wsRun failTwiceThenOk i 3 0 =
      [.connectAttempt 0, .sleep i, .connectAttempt 1, .sleep i,
       .connectAttempt 2, .connLoop, .sleep i]) ∧
    (∀ (c : Nat → Bool) (i fuel k : Nat),
      countConnects (wsRun c i fuel k) = fuel) := by
  constructor
  · intro i
    rfl
  · intro c i fuel
    induction fuel with
    | zero => intro k; rfl
    | succ n ih =>
      intro k
      cases hc : c k <;> simp [wsRun, hc, countConnects, ih]

/-- C8: `CustomOneBot::shutdown` sets the running flag to false and changes
nothing else — broadcaster, action handler, hooks, online flag, config,
identity fields, recorded task handles and the spawned-task set are all
unchanged (no task is aborted) — and `is_shutdown` is true afterwards. -/
theorem custom_shutdown_frame {ε : Type} (ob : CustomOneBot ε) :
    ob.shutdown.running = false ∧
    ob.shutdown.is_shutdown = true ∧
    ob.shutdown.broadcaster = ob.broadcaster ∧
    ob.shutdown.action_handler = ob.action_handler ∧
    ob.shutdown.hooks = ob.hooks ∧
    ob.shutdown.online = ob.online ∧
    ob.shutdown.config = ob.config ∧
    ob.shutdown.impl = ob.impl ∧
    ob.shutdown.platform = ob.platform ∧
    ob.shutdown.self_id = ob.self_id ∧
    ob.shutdown.http_join_handles = ob.http_join_handles ∧
    ob.shutdown.spawned = ob.spawned ∧
    ob.shutdown.nextTask = ob.nextTask :=
  ⟨rfl, rfl, rfl, rfl, rfl, rfl, rfl, rfl, rfl, rfl, rfl, rfl, rfl⟩

/-- C9: every `MessageBuild` builder method appends exactly one segment:
the result is one longer than the input, its first `length` elements are
the input unchanged, and its last element is the segment of the
corresponding kind carrying exactly the supplied arguments — with an empty
extension map for the non-`_with_extend` variants. -/
theorem message_build_appends_one :
    (∀ t, appendsOne (fun m => m.text t) (.Text t ExtendedMap.new)) ∧
    (∀ u, appendsOne (fun m => m.mention u) (.Mention u ExtendedMap.new)) ∧
    appendsOne (fun m => m.mention_all) (.MentionAll ExtendedMap.new) ∧
    (∀ f, appendsOne (fun m => m.image f) (.Image f ExtendedMap.new)) ∧
    (∀ f, appendsOne (fun m => m.voice f) (.Voice f ExtendedMap.new)) ∧
    (∀ f, appendsOne (fun m => m.audio f) (.Audio f ExtendedMap.new)) ∧
    (∀ f, appendsOne (fun m => m.video f) (.Video f ExtendedMap.new)) ∧
    (∀ f, appendsOne (fun m => m.file f) (.File f ExtendedMap.new)) ∧
    (∀ la lo t c, appendsOne (fun m => m.location la lo t c)
      (.Location la lo t c ExtendedMap.new)) ∧
    (∀ mi u, appendsOne (fun m => m.reply mi u)
      (.Reply mi u ExtendedMap.new)) ∧
    (∀ ty d, appendsOne (fun m => m.custom ty d) (.Custom ty d)) ∧
    (∀ t e, appendsOne (fun m => m.text_with_extend t e) (.Text t e)) ∧
    (∀ u e, appendsOne (fun m => m.mention_with_extend u e) (.Mention u e)) ∧
    (∀ e, appendsOne (fun m => m.mention_all_with_extend e) (.MentionAll e)) ∧
    (∀ f e, appendsOne (fun m => m.image_with_extend f e) (.Image f e)) ∧
    (∀ f e, appendsOne (fun m => m.voice_with_extend f e) (.Voice f e)) ∧
    (∀ f e, appendsOne (fun m => m.audio_with_extend f e) (.Audio f e)) ∧
    (∀ f e, appendsOne (fun m => m.video_with_extend f e) (.Video f e)) ∧
    (∀ f e, appendsOne (fun m => m.file_with_extend f e) (.File f e)) ∧
    (∀ la lo t c e, appendsOne (fun m => m.location_with_extend la lo t c e)
      (.Location la lo t c e)) ∧
    (∀ mi u e, appendsOne (fun m => m.reply_with_extend mi u e)
      (.Reply mi u e)) :=
  ⟨fun _ => appendsOne_concat _, fun _ => appendsOne_concat _,
   appendsOne_concat _, fun _ => appendsOne_concat _,
   fun _ => appendsOne_concat _, fun _ => appendsOne_concat _,
   fun _ => appendsOne_concat _, fun _ => appendsOne_concat _,
   fun _ _ _ _ => appendsOne_concat _, fun _ _ => appendsOne_concat _,
   fun _ _ => appendsOne_concat _, fun _ _ => appendsOne_concat _,
   fun _ _ => appendsOne_concat _, fun _ => appendsOne_concat _,
   fun _ _ => appendsOne_concat _, fun _ _ => appendsOne_concat _,
   fun _ _ => appendsOne_concat _, fun _ _ => appendsOne_concat _,
   fun _ _ => appendsOne_concat _, fun _ _ _ _ _ => appendsOne_concat _,
   fun _ _ _ => appendsOne_concat _⟩

/-- C10: a freshly constructed `CustomOneBot` is not running
(`is_running` false, `is_shutdown` true, status `{good: false,
online: false}`), and in every state `is_shutdown` is exactly the negation
of `is_running`. -/
theorem custom_new_not_running (ε : Type) :
    (∀ (i p s : String) (cfg : ImplConfig) (ah hk : Nat),
      (@CustomOneBot.new ε i p s cfg ah hk).is_running = false ∧
      (@CustomOneBot.new ε i p s cfg ah hk).is_shutdown = true ∧
      (@CustomOneBot.new ε i p s cfg ah hk).get_status =
        { good := false, online := false }) ∧
    (∀ ob : CustomOneBot ε, ob.is_shutdown = !ob.is_running) :=
  ⟨fun _ _ _ _ _ _ => ⟨rfl, rfl, rfl⟩, fun _ => rfl⟩

theorem run_ok_state {ε : Type} (ob : CustomOneBot ε)
    (h : ob.is_running = false) :
    ob.run.1 = .ok () ∧ ob.run.2.is_running = true := by
  unfold CustomOneBot.run
  simp only [h, Bool.false_eq_true, if_false]
  refine ⟨trivial, ?_⟩
  simp only [CustomOneBot.is_running]
  split <;> split <;> split <;> rfl

/-- C1: after a successful `run` (and no intervening `shutdown`), a second
`run` fails with `AlreadyRunning` and spawns no new tasks: the state —
including the task-handle lists and the spawned-task set — is unchanged by
the failing call. -/
theorem run_twice_already_running {ε : Type} (ob ob' : CustomOneBot ε)
    (h : ob.run = (.ok (), ob')) :
    ob'.run = (.error .AlreadyRunning, ob') ∧
    ob'.run.2.spawned = ob'.spawned ∧
    ob'.run.2.http_join_handles = ob'.http_join_handles := by
  have hr : ob.is_running = false := by
    cases hb : ob.is_running
    · rfl
    · simp [CustomOneBot.run, hb] at h
  have h2 : ob'.is_running = true := by
    have hsnd : ob.run.2 = ob' := by rw [h]
    rw [← hsnd]
    exact (run_ok_state ob hr).2
  refine ⟨?_, ?_, ?_⟩ <;> simp [CustomOneBot.run, h2]

/-- Witness for C1: a concrete runtime with every transport kind and the
heartbeat configured, run once successfully, then run again. -/
theorem run_twice_already_running_witness :
    ((@CustomOneBot.new Unit "w" "p" "s"
        ⟨[1], [2], [3], [4], ⟨true, 0⟩⟩ 0 0).run.1 = .ok ()) ∧
    ((@CustomOneBot.new Unit "w" "p" "s"
        ⟨[1], [2], [3], [4], ⟨true, 0⟩⟩ 0 0).run.2.run =
      (.error .AlreadyRunning,
       (@CustomOneBot.new Unit "w" "p" "s"
         ⟨[1], [2], [3], [4], ⟨true, 0⟩⟩ 0 0).run.2)) := by
  constructor
  · rfl
  · exact (run_twice_already_running
      (@CustomOneBot.new Unit "w" "p" "s" ⟨[1], [2], [3], [4], ⟨true, 0⟩⟩ 0 0)
      (@CustomOneBot.new Unit "w" "p" "s"
        ⟨[1], [2], [3], [4], ⟨true, 0⟩⟩ 0 0).run.2 rfl).1

end Walle
